import Mathlib

/-!
Shallow embedding of `ftrace.c` (a function tracer: record / replay / live
commands over a binary trace file of fixed-size call records), together with
theorems checking the natural-language specification against it.

Conventions of the embedding:
* C `unsigned long` values are modelled as `Nat`; where the C code performs
  unsigned subtraction (computing durations) we use `usub64`, subtraction
  modulo `2^64`.
* `printf` output is modelled as structured "line" values carrying exactly the
  arguments the C code passes to `printf`, in order; fixed format text and
  padding widths are part of the constructor, not data.
* The static symbol table (`find_symtab`, by address) is a function
  `Nat → Option String`; the by-name lookup (`find_symname`) is a function
  `String → Option Nat` returning the symbol's address; the dynamic-loader
  runtime lookup (`dladdr`, giving `dli_sname`) is a second
  `Nat → Option String`.
* A trace file body is the list of complete fixed-size records it contains,
  plus a flag recording whether a physically incomplete (byte-short) trailing
  fragment follows them.  `fread(&r, sizeof(r), 1, fp)` returns the number of
  *complete* items read, so no `fread` in the replay loop can ever return a
  record out of such a fragment; consequently the record-level reader exposes
  only the complete records.
-/

/-- 2^64, the modulus of C `unsigned long` arithmetic on the target platform. -/
def U64 : Nat := 2 ^ 64

/-- C unsigned-long subtraction `a - b`: subtraction modulo `2^64`. -/
def usub64 (a b : Nat) : Nat := (a + U64 - b % U64) % U64

/-- One trace record, C `struct mcount_ret_stack` as used by `ftrace.c`:
thread id, call depth, parent/child instruction pointers, start and end
timestamps.  `end_time == 0` marks a function-entry record; a nonzero
`end_time` marks a function-exit record. -/
structure McountRetStack where
  tid : Nat
  depth : Nat
  parent_ip : Nat
  child_ip : Nat
  start_time : Nat
  end_time : Nat
deriving DecidableEq, Repr

/-- The body of a trace file after the header: the complete fixed-size records
it contains, and whether a byte-short trailing fragment (fewer bytes than
`sizeof(struct mcount_ret_stack)`) follows them.  Since `fread` with item
count 1 returns 1 only when a full record was read, a trailing fragment can
never be returned by any read. -/
structure TraceBody where
  records : List McountRetStack
  fragment : Bool
deriving DecidableEq, Repr

/-- Name used by `print_flat_rstack` for an instruction pointer: the static
table first (`find_symtab`), then the `dladdr` runtime lookup
(`info.dli_sname ?: "unknown"`). -/
def flat_name (st dyn : Nat → Option String) (ip : Nat) : String :=
  match st ip with
  | some n => n
  | none => (dyn ip).getD "unknown"

/-- Name used by `print_graph_rstack` for the child instruction pointer:
`sym ? sym->name : "unknown"` — only the static table, no `dladdr`. -/
def graph_name (st : Nat → Option String) (ip : Nat) : String :=
  (st ip).getD "unknown"

/-- One line printed by `print_flat_rstack`.  `entry` is
`printf("[%d] %d/%d: ip (%s -> %s), time (%lu)\n", count++, tid, depth,
parent_name, child_name, start_time)`; `exitL` is
`printf("[%d] %d/%d: ip (%s <- %s), time (%lu:%lu)\n", count++, tid, depth,
parent_name, child_name, end_time, end_time - start_time)`. -/
inductive FlatLine where
  | entry (count tid depth : Nat) (parent_name child_name : String)
      (start_time : Nat)
  | exitL (count tid depth : Nat) (parent_name child_name : String)
      (end_time dur : Nat)
deriving DecidableEq, Repr

/-- `print_flat_rstack`: resolves both addresses (static table plus `dladdr`
fallback), prints one line, and post-increments the static counter.  Returns
the line and the new counter; the C function's return value is always 0. -/
def print_flat_rstack (st dyn : Nat → Option String) (count : Nat)
    (r : McountRetStack) : FlatLine × Nat :=
  let parent_name := flat_name st dyn r.parent_ip
  let child_name := flat_name st dyn r.child_ip
  if r.end_time = 0 then
    (.entry count r.tid r.depth parent_name child_name r.start_time, count + 1)
  else
    (.exitL count r.tid r.depth parent_name child_name r.end_time
      (usub64 r.end_time r.start_time), count + 1)

/-- The flat branch of `command_replay`'s loop: `fread` one record at a time
until the read fails (end of complete records), calling `print_flat_rstack`
on each; the static `count` threads through. -/
def replay_flat_records (st dyn : Nat → Option String) (count : Nat) :
    List McountRetStack → List FlatLine
  | [] => []
  | r :: rest =>
    let step := print_flat_rstack st dyn count r
    step.1 :: replay_flat_records st dyn step.2 rest

/-- `command_replay` with `--flat`: the loop-top `fread` fails on an empty or
byte-short remainder, ending the loop cleanly; `print_flat_rstack` always
returns 0, so the final return value is 0. -/
def command_replay_flat (st dyn : Nat → Option String) (body : TraceBody) :
    List FlatLine × Int :=
  (replay_flat_records st dyn 0 body.records, 0)

/-- One line printed by `print_graph_rstack`.
`openL` is `printf("%9s [%5d] | %*s%s() {\n", "", tid, depth * 2, "", name)`
(function entry, duration not yet known);
`leafL` is `printf("%4lu usec [%5d] | %*s%s();\n",
next.end_time - r.start_time, tid, depth * 2, "", name)` (collapsed leaf);
`closeL` is `printf("%4lu usec [%5d] | %*s} /* %s */\n",
end_time - start_time, tid, depth * 2, "", name)` (function exit). -/
inductive GLine where
  | openL (tid depth : Nat) (name : String)
  | leafL (dur tid depth : Nat) (name : String)
  | closeL (dur tid depth : Nat) (name : String)
deriving DecidableEq, Repr

/-- The graph branch of `command_replay`'s loop together with
`print_graph_rstack`, over the complete records of the file.

Per iteration, `fread` reads record `r` (failure at loop top ends the loop
cleanly, return 0).  If `r` is an exit (`end_time ≠ 0`) a `closeL` line is
printed.  If `r` is an entry, `fgetpos` saves the position and the lookahead
`fread` reads the next record `n`: if that read fails, `perror` and return -1
(the loop breaks with -1); if `n.depth == r.depth && n.end_time != 0` the call
is a leaf — both records are consumed and one `leafL` line printed; otherwise
an `openL` line is printed and `fsetpos` rewinds so `n` is reprocessed. -/
def replay_graph_records (st : Nat → Option String) :
    List McountRetStack → List GLine × Int
  | [] => ([], 0)
  | [r] =>
    if r.end_time ≠ 0 then
      ([.closeL (usub64 r.end_time r.start_time) r.tid r.depth
          (graph_name st r.child_ip)], 0)
    else
      ([], -1)
  | r :: n :: rest =>
    if r.end_time ≠ 0 then
      let p := replay_graph_records st (n :: rest)
      (.closeL (usub64 r.end_time r.start_time) r.tid r.depth
          (graph_name st r.child_ip) :: p.1, p.2)
    else
      if n.depth = r.depth ∧ n.end_time ≠ 0 then
        let p := replay_graph_records st rest
        (.leafL (usub64 n.end_time r.start_time) r.tid r.depth
            (graph_name st r.child_ip) :: p.1, p.2)
      else
        let p := replay_graph_records st (n :: rest)
        (.openL r.tid r.depth (graph_name st r.child_ip) :: p.1, p.2)

/-- `command_replay` in graph (default) mode, on a trace-file body.  The
byte-short trailing fragment, when present, cannot satisfy any full-record
`fread`, so only the complete records are processed. -/
def command_replay_graph (st : Nat → Option String) (body : TraceBody) :
    List GLine × Int :=
  replay_graph_records st body.records

/-- The six-record single-thread example sequence
`enter(main,d0,t0), enter(foo,d1,t1), enter(bar,d2,t2), exit(bar,d2,t3),
exit(foo,d1,t4), exit(main,d0,t5)`.  `pm` is main's caller's address, and
`mIp`, `fIp`, `bIp` the addresses of `main`, `foo`, `bar`; an exit record
carries the same start time as its matching entry. -/
def exampleRecords (tid d0 d1 d2 t0 t1 t2 t3 t4 t5 pm mIp fIp bIp : Nat) :
    List McountRetStack :=
  [⟨tid, d0, pm, mIp, t0, 0⟩,
   ⟨tid, d1, mIp, fIp, t1, 0⟩,
   ⟨tid, d2, fIp, bIp, t2, 0⟩,
   ⟨tid, d2, fIp, bIp, t2, t3⟩,
   ⟨tid, d1, mIp, fIp, t1, t4⟩,
   ⟨tid, d0, pm, mIp, t0, t5⟩]

/-- The default trace file name (`ftrace.data`, see the `-f` option help text
and `FTRACE_FILE_NAME`). -/
def FTRACE_FILE_NAME : String := "ftrace.data"

/-- glibc `%#lx` formatting of an address: lowercase hexadecimal with a `0x`
prefix; the `#` flag adds the prefix only for a nonzero value. -/
def formatHexAlt (n : Nat) : String :=
  if n = 0 then "0" else "0x" ++ (Nat.toDigits 16 n).asString

/-- Character-level splitter behind `strtokSplit`: `cur` accumulates the
characters of the token being read; a delimiter (or the end of the string)
closes the token, and empty tokens are skipped, as `strtok` does. -/
def strtokAux : List Char → List Char → List String
  | cur, [] => if cur.isEmpty then [] else [cur.asString]
  | cur, c :: cs =>
    if c = ',' ∨ c = ':' then
      (if cur.isEmpty then [] else [cur.asString]) ++ strtokAux [] cs
    else strtokAux (cur ++ [c]) cs

/-- `strtok(symlist, ",:")` iterated to exhaustion: the maximal delimiter-free
nonempty tokens of the string, in order. -/
def strtokSplit (s : String) : List String := strtokAux [] s.data

/-- Body of `build_addrlist`'s loop.  `first` models the C pointer `p`, which
is non-NULL only on the first iteration: the separator prepended to a resolved
address is `""` when `p` is non-NULL and `":"` afterwards, so the first token
consumes the no-separator slot whether or not it resolves.  An unresolved name
appends nothing. -/
def build_addrlist_go (find_symname : String → Option Nat) :
    Bool → List String → String
  | _, [] => ""
  | first, fname :: rest =>
    (match find_symname fname with
     | some addr => (if first then "" else ":") ++ formatHexAlt addr
     | none => "") ++ build_addrlist_go find_symname false rest

/-- `build_addrlist(buf, symlist)`: tokenize `symlist` on `','`/`':'` and
concatenate the resolved addresses with `":"` separators as above. -/
def build_addrlist (find_symname : String → Option Nat) (symlist : String) :
    String :=
  build_addrlist_go find_symname true (strtokSplit symlist)

/-- The fields of C `struct opts` used by the embedded commands (`mode` and
`idx` belong to argument parsing, which is out of scope).  `lib_path`,
`filter` and `notrace` are NULL when the option was not given. -/
structure Opts where
  lib_path : Option String
  filter : Option String
  notrace : Option String
  exename : String
  filename : String
  flat : Bool
deriving DecidableEq, Repr

/-- The environment variables `setup_child_environ` reads or writes; `none`
means the variable is unset. -/
structure Env where
  ld_preload : Option String
  ld_audit : Option String
  ftrace_filter : Option String
  ftrace_notrace : Option String
  ftrace_file : Option String
  ftrace_debug : Option String
deriving DecidableEq, Repr

/-- `setup_child_environ`, as a pure transformation on the environment.
`LD_PRELOAD` / `LD_AUDIT` are set to the interposition library path,
followed by `":"` and the old value when one existed.  `FTRACE_FILTER` /
`FTRACE_NOTRACE` are set (to the corresponding address list) only when the
`-F` / `-N` option was given; `FTRACE_FILE` only when the filename differs
from the default; `FTRACE_DEBUG` only when the `-d` flag set the global
`debug`. -/
def setup_child_environ (find_symname : String → Option Nat) (debug : Bool)
    (opts : Opts) (env : Env) : Env :=
  let lib_path := opts.lib_path.getD "."
  let preload := lib_path ++ "/" ++ "libmcount.so" ++
    (match env.ld_preload with
     | some old => ":" ++ old
     | none => "")
  let audit := lib_path ++ "/" ++ "librtld-audit.so" ++
    (match env.ld_audit with
     | some old => ":" ++ old
     | none => "")
  { ld_preload := some preload
    ld_audit := some audit
    ftrace_filter :=
      match opts.filter with
      | some f => some (build_addrlist find_symname f)
      | none => env.ftrace_filter
    ftrace_notrace :=
      match opts.notrace with
      | some n => some (build_addrlist find_symname n)
      | none => env.ftrace_notrace
    ftrace_file :=
      if opts.filename ≠ FTRACE_FILE_NAME then some opts.filename
      else env.ftrace_file
    ftrace_debug := if debug then some "1" else env.ftrace_debug }

/-- Externally visible effects of `command_record`, in program order. -/
inductive RecordEffect where
  | renamedBackup (oldPath newPath : String)
  | printedProbeMissing (symName exeName : String)
  | forked
  | waitedChild
deriving DecidableEq, Repr

/-- The outside world as `command_record` observes it: the result of
`load_symtab(exename)` (`none` on failure, otherwise the by-name symbol
lookup), whether `fork` succeeds, and whether the trace file exists when the
child has exited. -/
structure RecordWorld where
  symtabOfExe : Option (String → Option Nat)
  forkOk : Bool
  traceFileExists : Bool

/-- `command_record`: back up a default-named old trace file (best effort),
load the target's symbol table (failure returns -1), require the `"mcount"`
probe symbol (absence prints `mcount_msg` and returns -1 — before any fork),
fork and wait for the child, then require the trace file to exist.  Returns
the C return value and the effect trace. -/
def command_record (w : RecordWorld) (opts : Opts) : Int × List RecordEffect :=
  let pre : List RecordEffect :=
    if FTRACE_FILE_NAME = opts.filename then
      [.renamedBackup opts.filename (opts.filename ++ ".old")]
    else []
  match w.symtabOfExe with
  | none => (-1, pre)
  | some find_symname =>
    match find_symname "mcount" with
    | none => (-1, pre ++ [.printedProbeMissing "mcount" opts.exename])
    | some _ =>
      if w.forkOk then
        let eff := pre ++ [.forked, .waitedChild]
        if w.traceFileExists then (0, eff) else (-1, eff)
      else (-1, pre)

/-- The trace-file header, C `struct ftrace_file_header`: a fixed-length magic
byte sequence and a version number. -/
structure FtraceFileHeader where
  magic : List Nat
  version : Nat
deriving DecidableEq, Repr

/-- How `open_data_file` can fail, named as in the specification:
missing file (`ENOENT`), any other open failure, bad magic, bad version. -/
inductive OpenError where
  | NotFound
  | IOError
  | BadMagic
  | UnsupportedVersion
deriving DecidableEq, Repr

/-- What `fopen` + the header `fread` can observe about the file: `fopen`
fails with `ENOENT`, `fopen` fails with some other errno, or the file opens
and yields a header. -/
inductive DataFileState where
  | missingENOENT
  | openFailOther
  | readable (header : FtraceFileHeader)
deriving DecidableEq, Repr

/-- `open_data_file(filename, exename)`, parameterized by the expected magic
bytes (`FTRACE_MAGIC_STR`, compared over `FTRACE_MAGIC_LEN` bytes — the full
length of the magic field) and expected version (`FTRACE_VERSION`), both
defined in the header `mcount.h`.  `ENOENT` prints the re-run-record guidance
and yields no reader (`NotFound`); any other open failure goes through
`perror` (`IOError`); a magic `memcmp` mismatch yields `BadMagic`; a version
inequality yields `UnsupportedVersion`; otherwise the reader is usable. -/
def open_data_file (magicStr : List Nat) (version : Nat)
    (f : DataFileState) : Except OpenError Unit :=
  match f with
  | .missingENOENT => .error .NotFound
  | .openFailOther => .error .IOError
  | .readable h =>
    if h.magic ≠ magicStr then .error .BadMagic
    else if h.version ≠ version then .error .UnsupportedVersion
    else .ok ()

/-- Externally visible effects of `command_live`, in program order. -/
inductive LiveEffect where
  | ranRecord (filename : String)
  | ranReplay (filename : String)
  | unlinked (filename : String)
deriving DecidableEq, Repr

/-- The outside world as `command_live` observes it: the fresh temporary path
`mkstemp` produced (`none` on failure) and the return value `command_record`
gives for that path. -/
structure LiveWorld where
  mkstempPath : Option String
  recordResult : Int
deriving DecidableEq, Repr

/-- `command_live`: make a fresh temporary file (failure returns -1), install
its path as `opts->filename`, run `command_record`, run `command_replay` only
when record returned 0, unlink the temporary file unconditionally, and
return 0. -/
def command_live (w : LiveWorld) : Int × List LiveEffect :=
  match w.mkstempPath with
  | none => (-1, [])
  | some tmp =>
    (0, [.ranRecord tmp] ++
        (if w.recordResult = 0 then [.ranReplay tmp] else []) ++
        [.unlinked tmp])

/-- Concrete static symbol table used to instantiate the example sequence:
`main` at 0x1000, `foo` at 0x2000, `bar` at 0x3000. -/
def stExample : Nat → Option String := fun a =>
  if a = 4096 then some "main"
  else if a = 8192 then some "foo"
  else if a = 12288 then some "bar"
  else none

/-- Concrete by-name lookup: only `foo` resolves, to address 0x1000. -/
def findExample : String → Option Nat :=
  fun s => if s = "foo" then some 4096 else none

/-- A static table that resolves no address. -/
def stMiss : Nat → Option String := fun _ => none

/-- A dynamic-loader lookup that resolves every address to `shared_fn`. -/
def dynHit : Nat → Option String := fun _ => some "shared_fn"

/-- A concrete exit record (`end_time = 20 ≠ 0`) whose child address 7 is
absent from `stMiss` but resolved by `dynHit`. -/
def rExit : McountRetStack := ⟨3, 0, 5, 7, 10, 20⟩

theorem usub64_eq (a b : Nat) (hba : b ≤ a) (ha : a < U64) :
    usub64 a b = a - b := by
  unfold usub64
  rw [Nat.mod_eq_of_lt (lt_of_le_of_lt hba ha)]
  have h : a + U64 - b = (a - b) + U64 := by omega
  rw [h, Nat.add_mod_right, Nat.mod_eq_of_lt (by omega)]

/-- C1 (amended): on the six-record example sequence the graph renderer
emits exactly 5 lines, in order: an opening line for `main`, an opening line
for `foo`, a single collapsed leaf line for `bar` with duration `t3 − t2`,
a closing line for `foo` with duration `t4 − t1`, and a closing line for
`main` with duration `t5 − t0`; the replay loop then ends cleanly (return 0).
The exit timestamps are nonzero (they mark exits) and durations are in
unsigned-long range. -/
theorem claim1_graph_leaf_collapsing
    (st : Nat → Option String)
    (tid d0 d1 d2 t0 t1 t2 t3 t4 t5 pm mIp fIp bIp : Nat) (frag : Bool)
    (h3 : t3 ≠ 0) (h4 : t4 ≠ 0) (h5 : t5 ≠ 0)
    (h23 : t2 ≤ t3) (h3u : t3 < U64)
    (h14 : t1 ≤ t4) (h4u : t4 < U64)
    (h05 : t0 ≤ t5) (h5u : t5 < U64)
    (hm : st mIp = some "main") (hf : st fIp = some "foo")
    (hb : st bIp = some "bar") :
    command_replay_graph st
      ⟨exampleRecords tid d0 d1 d2 t0 t1 t2 t3 t4 t5 pm mIp fIp bIp, frag⟩ =
    ([.openL tid d0 "main",
      .openL tid d1 "foo",
      .leafL (t3 - t2) tid d2 "bar",
      .closeL (t4 - t1) tid d1 "foo",
      .closeL (t5 - t0) tid d0 "main"], 0) := by
  simp [command_replay_graph, exampleRecords, replay_graph_records,
    graph_name, hm, hf, hb, h3, h4, h5,
    usub64_eq t3 t2 h23 h3u, usub64_eq t4 t1 h14 h4u, usub64_eq t5 t0 h05 h5u]

theorem claim1_witness :
    command_replay_graph stExample
      ⟨exampleRecords 7 0 1 2 10 20 30 40 50 60 1280 4096 8192 12288, true⟩ =
    ([.openL 7 0 "main",
      .openL 7 1 "foo",
      .leafL 10 7 2 "bar",
      .closeL 30 7 1 "foo",
      .closeL 50 7 0 "main"], 0) :=
  claim1_graph_leaf_collapsing stExample 7 0 1 2 10 20 30 40 50 60
    1280 4096 8192 12288 true
    (by decide) (by decide) (by decide)
    (by decide) (by decide) (by decide)
    (by decide) (by decide) (by decide)
    rfl rfl rfl

/-- C1 counterexample: on a concrete instance of the six-record example
sequence the graph renderer emits 5 lines, not 4 — the claim's "emits exactly
4 lines" is false (its own enumeration lists the 5 lines actually printed). -/
theorem claim1_counterexample :
    (command_replay_graph stExample
      ⟨exampleRecords 7 0 1 2 10 20 30 40 50 60 1280 4096 8192 12288,
       false⟩).1.length = 5 ∧
    (command_replay_graph stExample
      ⟨exampleRecords 7 0 1 2 10 20 30 40 50 60 1280 4096 8192 12288,
       false⟩).1.length ≠ 4 := by
  constructor <;> decide

/-- C2: a byte-short trailing fragment is invisible to the record-level
reader, so replay over a file with the fragment equals replay without it and
an empty record list ends cleanly with return 0; but a trace ending right
after a lone entry record (`end_time = 0`) makes the graph renderer's
lookahead read fail, and replay returns -1 (fatal stream error). -/
theorem claim2_truncated_stream (st : Nat → Option String)
    (recs : List McountRetStack) (frag : Bool) (r : McountRetStack)
    (hr : r.end_time = 0) :
    command_replay_graph st ⟨recs, frag⟩ = command_replay_graph st ⟨recs, false⟩ ∧
    command_replay_graph st ⟨[], frag⟩ = ([], 0) ∧
    command_replay_graph st ⟨[r], frag⟩ = ([], -1) := by
  refine ⟨rfl, rfl, ?_⟩
  simp [command_replay_graph, replay_graph_records, hr]

theorem claim2_witness :
    (⟨2, 0, 5, 7, 11, 0⟩ : McountRetStack).end_time = 0 ∧
    command_replay_graph stMiss ⟨[⟨2, 0, 5, 7, 11, 0⟩], true⟩ = ([], -1) :=
  ⟨rfl, (claim2_truncated_stream stMiss [] true ⟨2, 0, 5, 7, 11, 0⟩ rfl).2.2⟩

/-- C3: with `foo` resolved to `0x1000` and `bar` unresolved,
`build_addrlist` yields `"0x1000"` for the list `foo,bar` (no trailing
separator) and `":0x1000"` for `bar,foo` (the unresolved first token consumed
the no-separator slot, so the resolved second token carries a leading
colon). -/
theorem claim3_build_addrlist (find_symname : String → Option Nat)
    (hfoo : find_symname "foo" = some 4096)
    (hbar : find_symname "bar" = none) :
    build_addrlist find_symname "foo,bar" = "0x1000" ∧
    build_addrlist find_symname "bar,foo" = ":0x1000" := by
  have h1 : strtokSplit "foo,bar" = ["foo", "bar"] := by decide
  have h2 : strtokSplit "bar,foo" = ["bar", "foo"] := by decide
  refine ⟨?_, ?_⟩
  · unfold build_addrlist
    rw [h1]
    simp only [build_addrlist_go, hfoo, hbar]
    decide
  · unfold build_addrlist
    rw [h2]
    simp only [build_addrlist_go, hfoo, hbar]
    decide

theorem claim3_witness :
    findExample "foo" = some 4096 ∧ findExample "bar" = none ∧
    (build_addrlist findExample "foo,bar" = "0x1000" ∧
     build_addrlist findExample "bar,foo" = ":0x1000") :=
  ⟨rfl, rfl, claim3_build_addrlist findExample rfl rfl⟩

/-- C4 counterexample: on the record `rExit`, whose child address 7 misses
the static table but is resolved by the dynamic lookup (`dynHit 7 =
some "shared_fn"`), the graph renderer still prints `"unknown"` — it never
consults the dynamic-loader fallback — while the flat renderer on the same
tables prints `"shared_fn"`.  This refutes the claim that *both* renderers
consult `dladdr` before printing "unknown". -/
theorem claim4_counterexample :
    dynHit 7 = some "shared_fn" ∧
    command_replay_graph stMiss ⟨[rExit], false⟩ =
      ([.closeL 10 3 0 "unknown"], 0) ∧
    command_replay_flat stMiss dynHit ⟨[rExit], false⟩ =
      ([.exitL 0 3 0 "shared_fn" "shared_fn" 20 10], 0) := by
  refine ⟨rfl, ?_, ?_⟩ <;> decide

/-- C4 (amended): when the static symbol-table lookup misses, the *flat*
renderer's name resolution consults the dynamic-loader runtime lookup and
prints "unknown" only when that fallback also fails, whereas the *graph*
renderer's name resolution prints "unknown" immediately, without any
fallback. -/
theorem claim4_dladdr_fallback (st dyn : Nat → Option String) (ip : Nat)
    (h : st ip = none) :
    flat_name st dyn ip = (dyn ip).getD "unknown" ∧
    graph_name st ip = "unknown" := by
  simp [flat_name, graph_name, h]

theorem claim4_witness :
    flat_name stMiss dynHit 7 = (dynHit 7).getD "unknown" ∧
    graph_name stMiss 7 = "unknown" :=
  claim4_dladdr_fallback stMiss dynHit 7 rfl

/-- C5: `setup_child_environ` prepends the interposition libraries: with a
pre-existing value, the new `LD_PRELOAD` is `<lib_path>/libmcount.so`
followed by `":"` and the old value unchanged as a suffix (likewise
`LD_AUDIT` with `librtld-audit.so`); with no prior value the variable holds
only the library path. -/
theorem claim5_env_prepend (find_symname : String → Option Nat)
    (debug : Bool) (opts : Opts) (env : Env) :
    (env.ld_preload = none →
      (setup_child_environ find_symname debug opts env).ld_preload =
        some (opts.lib_path.getD "." ++ "/" ++ "libmcount.so")) ∧
    (∀ old, env.ld_preload = some old →
      (setup_child_environ find_symname debug opts env).ld_preload =
        some (opts.lib_path.getD "." ++ "/" ++ "libmcount.so" ++ ":" ++ old)) ∧
    (env.ld_audit = none →
      (setup_child_environ find_symname debug opts env).ld_audit =
        some (opts.lib_path.getD "." ++ "/" ++ "librtld-audit.so")) ∧
    (∀ old, env.ld_audit = some old →
      (setup_child_environ find_symname debug opts env).ld_audit =
        some (opts.lib_path.getD "." ++ "/" ++ "librtld-audit.so" ++ ":" ++ old)) := by
  refine ⟨fun h => ?_, fun old h => ?_, fun h => ?_, fun old h => ?_⟩ <;>
    simp [setup_child_environ, h, String.append_assoc] <;>
    (try congr 1)

theorem claim5_witness :
    ((⟨some "preA.so", none, none, none, none, none⟩ : Env).ld_preload =
        some "preA.so" →
      (setup_child_environ findExample false
        ⟨some "/usr/lib", none, none, "a.out", "ftrace.data", false⟩
        ⟨some "preA.so", none, none, none, none, none⟩).ld_preload =
        some ((some "/usr/lib").getD "." ++ "/" ++ "libmcount.so" ++ ":" ++
          "preA.so")) ∧
    ((⟨some "preA.so", none, none, none, none, none⟩ : Env).ld_audit = none →
      (setup_child_environ findExample false
        ⟨some "/usr/lib", none, none, "a.out", "ftrace.data", false⟩
        ⟨some "preA.so", none, none, none, none, none⟩).ld_audit =
        some ((some "/usr/lib").getD "." ++ "/" ++ "librtld-audit.so")) :=
  ⟨fun h => (claim5_env_prepend findExample false
      ⟨some "/usr/lib", none, none, "a.out", "ftrace.data", false⟩
      ⟨some "preA.so", none, none, none, none, none⟩).2.1 "preA.so" h,
   fun h => (claim5_env_prepend findExample false
      ⟨some "/usr/lib", none, none, "a.out", "ftrace.data", false⟩
      ⟨some "preA.so", none, none, none, none, none⟩).2.2.1 h⟩

/-- C6: `FTRACE_FILTER` / `FTRACE_NOTRACE` are written only when the
corresponding name-list option was given (and then hold its address list);
`FTRACE_FILE` only when the configured filename differs from the default
`ftrace.data`; `FTRACE_DEBUG` only when debugging is enabled; in every other
case the variable keeps its prior value. -/
theorem claim6_env_conditional (find_symname : String → Option Nat)
    (debug : Bool) (opts : Opts) (env : Env) :
    (opts.filter = none →
      (setup_child_environ find_symname debug opts env).ftrace_filter =
        env.ftrace_filter) ∧
    (∀ f, opts.filter = some f →
      (setup_child_environ find_symname debug opts env).ftrace_filter =
        some (build_addrlist find_symname f)) ∧
    (opts.notrace = none →
      (setup_child_environ find_symname debug opts env).ftrace_notrace =
        env.ftrace_notrace) ∧
    (∀ n, opts.notrace = some n →
      (setup_child_environ find_symname debug opts env).ftrace_notrace =
        some (build_addrlist find_symname n)) ∧
    (opts.filename = FTRACE_FILE_NAME →
      (setup_child_environ find_symname debug opts env).ftrace_file =
        env.ftrace_file) ∧
    (opts.filename ≠ FTRACE_FILE_NAME →
      (setup_child_environ find_symname debug opts env).ftrace_file =
        some opts.filename) ∧
    (debug = false →
      (setup_child_environ find_symname debug opts env).ftrace_debug =
        env.ftrace_debug) ∧
    (debug = true →
      (setup_child_environ find_symname debug opts env).ftrace_debug =
        some "1") := by
  refine ⟨fun h => ?_, fun f h => ?_, fun h => ?_, fun n h => ?_,
    fun h => ?_, fun h => ?_, fun h => ?_, fun h => ?_⟩ <;>
    simp [setup_child_environ, h]

theorem claim6_witness :
    ((⟨none, none, none, "a.out", "ftrace.data", false⟩ : Opts).filter =
        none →
      (setup_child_environ findExample false
        ⟨none, none, none, "a.out", "ftrace.data", false⟩
        ⟨none, none, some "keep", none, some "keepf", some "keepd"⟩).ftrace_filter =
        (⟨none, none, some "keep", none, some "keepf", some "keepd"⟩ :
          Env).ftrace_filter) ∧
    ((⟨none, none, none, "a.out", "ftrace.data", false⟩ : Opts).filename =
        FTRACE_FILE_NAME →
      (setup_child_environ findExample false
        ⟨none, none, none, "a.out", "ftrace.data", false⟩
        ⟨none, none, some "keep", none, some "keepf", some "keepd"⟩).ftrace_file =
        (⟨none, none, some "keep", none, some "keepf", some "keepd"⟩ :
          Env).ftrace_file) ∧
    (false = false →
      (setup_child_environ findExample false
        ⟨none, none, none, "a.out", "ftrace.data", false⟩
        ⟨none, none, some "keep", none, some "keepf", some "keepd"⟩).ftrace_debug =
        (⟨none, none, some "keep", none, some "keepf", some "keepd"⟩ :
          Env).ftrace_debug) :=
  ⟨fun h => (claim6_env_conditional findExample false
      ⟨none, none, none, "a.out", "ftrace.data", false⟩
      ⟨none, none, some "keep", none, some "keepf", some "keepd"⟩).1 h,
   fun h => (claim6_env_conditional findExample false
      ⟨none, none, none, "a.out", "ftrace.data", false⟩
      ⟨none, none, some "keep", none, some "keepf", some "keepd"⟩).2.2.2.2.1 h,
   fun h => (claim6_env_conditional findExample false
      ⟨none, none, none, "a.out", "ftrace.data", false⟩
      ⟨none, none, some "keep", none, some "keepf", some "keepd"⟩).2.2.2.2.2.2.1 h⟩

/-- C7: when the loaded symbol table has no `"mcount"` symbol,
`command_record` prints the probe-missing message and returns -1, and its
effect trace contains no fork — no child process is ever launched. -/
theorem claim7_probe_missing (w : RecordWorld) (opts : Opts)
    (find_symname : String → Option Nat)
    (hload : w.symtabOfExe = some find_symname)
    (hmcount : find_symname "mcount" = none) :
    (command_record w opts).1 = -1 ∧
    RecordEffect.printedProbeMissing "mcount" opts.exename ∈
      (command_record w opts).2 ∧
    RecordEffect.forked ∉ (command_record w opts).2 := by
  by_cases h : FTRACE_FILE_NAME = opts.filename <;>
    simp [command_record, hload, hmcount, h]

theorem claim7_witness :
    (⟨some fun _ => none, true, true⟩ : RecordWorld).symtabOfExe =
      some (fun _ => none) ∧
    (fun _ => (none : Option Nat)) "mcount" = none ∧
    ((command_record ⟨some fun _ => none, true, true⟩
        ⟨none, none, none, "a.out", "ftrace.data", false⟩).1 = -1 ∧
     RecordEffect.printedProbeMissing "mcount" "a.out" ∈
       (command_record ⟨some fun _ => none, true, true⟩
         ⟨none, none, none, "a.out", "ftrace.data", false⟩).2 ∧
     RecordEffect.forked ∉
       (command_record ⟨some fun _ => none, true, true⟩
         ⟨none, none, none, "a.out", "ftrace.data", false⟩).2) :=
  ⟨rfl, rfl, claim7_probe_missing ⟨some fun _ => none, true, true⟩
    ⟨none, none, none, "a.out", "ftrace.data", false⟩ (fun _ => none) rfl rfl⟩

/-- C8: the flat renderer emits exactly one line per record: the six-record
example sequence yields exactly 6 lines with counters `0..5` in order
(post-incremented global counter starting at 0), each entry record printing
an entry arrow with its `start_time` and each exit record an exit arrow with
its `end_time` and duration `end_time − start_time`. -/
theorem claim8_flat_cardinality (st dyn : Nat → Option String)
    (tid d0 d1 d2 t0 t1 t2 t3 t4 t5 pm mIp fIp bIp : Nat) (frag : Bool)
    (h3 : t3 ≠ 0) (h4 : t4 ≠ 0) (h5 : t5 ≠ 0)
    (h23 : t2 ≤ t3) (h3u : t3 < U64)
    (h14 : t1 ≤ t4) (h4u : t4 < U64)
    (h05 : t0 ≤ t5) (h5u : t5 < U64) :
    command_replay_flat st dyn
      ⟨exampleRecords tid d0 d1 d2 t0 t1 t2 t3 t4 t5 pm mIp fIp bIp, frag⟩ =
    ([.entry 0 tid d0 (flat_name st dyn pm) (flat_name st dyn mIp) t0,
      .entry 1 tid d1 (flat_name st dyn mIp) (flat_name st dyn fIp) t1,
      .entry 2 tid d2 (flat_name st dyn fIp) (flat_name st dyn bIp) t2,
      .exitL 3 tid d2 (flat_name st dyn fIp) (flat_name st dyn bIp) t3
        (t3 - t2),
      .exitL 4 tid d1 (flat_name st dyn mIp) (flat_name st dyn fIp) t4
        (t4 - t1),
      .exitL 5 tid d0 (flat_name st dyn pm) (flat_name st dyn mIp) t5
        (t5 - t0)], 0) := by
  simp [command_replay_flat, replay_flat_records, print_flat_rstack,
    exampleRecords, h3, h4, h5,
    usub64_eq t3 t2 h23 h3u, usub64_eq t4 t1 h14 h4u, usub64_eq t5 t0 h05 h5u]

theorem claim8_witness :
    command_replay_flat stExample stMiss
      ⟨exampleRecords 7 0 1 2 10 20 30 40 50 60 1280 4096 8192 12288,
       false⟩ =
    ([.entry 0 7 0 (flat_name stExample stMiss 1280)
        (flat_name stExample stMiss 4096) 10,
      .entry 1 7 1 (flat_name stExample stMiss 4096)
        (flat_name stExample stMiss 8192) 20,
      .entry 2 7 2 (flat_name stExample stMiss 8192)
        (flat_name stExample stMiss 12288) 30,
      .exitL 3 7 2 (flat_name stExample stMiss 8192)
        (flat_name stExample stMiss 12288) 40 (40 - 30),
      .exitL 4 7 1 (flat_name stExample stMiss 4096)
        (flat_name stExample stMiss 8192) 50 (50 - 20),
      .exitL 5 7 0 (flat_name stExample stMiss 1280)
        (flat_name stExample stMiss 4096) 60 (60 - 10)], 0) :=
  claim8_flat_cardinality stExample stMiss 7 0 1 2 10 20 30 40 50 60
    1280 4096 8192 12288 false
    (by decide) (by decide) (by decide)
    (by decide) (by decide) (by decide)
    (by decide) (by decide) (by decide)

/-- C9: `open_data_file` yields `NotFound` on a missing file (`ENOENT`),
`IOError` on any other open failure, `BadMagic` whenever the header's magic
differs from the expected constant — in particular when any single byte of
the expected magic is corrupted — `UnsupportedVersion` when the magic matches
but the version differs, and a usable reader only when all checks pass. -/
theorem claim9_open_validation (magicStr : List Nat) (version : Nat)
    (h : FtraceFileHeader) :
    open_data_file magicStr version .missingENOENT = .error .NotFound ∧
    open_data_file magicStr version .openFailOther = .error .IOError ∧
    (h.magic ≠ magicStr →
      open_data_file magicStr version (.readable h) = .error .BadMagic) ∧
    (h.magic = magicStr → h.version ≠ version →
      open_data_file magicStr version (.readable h) =
        .error .UnsupportedVersion) ∧
    (h.magic = magicStr → h.version = version →
      open_data_file magicStr version (.readable h) = .ok ()) ∧
    (∀ i b, i < magicStr.length → b ≠ magicStr.getD i 0 →
      open_data_file magicStr version
        (.readable ⟨magicStr.set i b, h.version⟩) = .error .BadMagic) := by
  refine ⟨rfl, rfl, fun hm => ?_, fun hm hv => ?_, fun hm hv => ?_,
    fun i b hi hb => ?_⟩
  · simp [open_data_file, hm]
  · simp [open_data_file, hm, hv]
  · simp [open_data_file, hm, hv]
  · have hne : magicStr.set i b ≠ magicStr := by
      intro he
      have h1 : (magicStr.set i b).getD i 0 = b := by
        rw [List.getD_eq_getElem _ 0 (by simpa using hi)]
        simp [List.getElem_set]
      rw [he] at h1
      exact hb h1.symm
    simp [open_data_file, hne]

theorem claim9_witness :
    open_data_file [70, 1, 2, 3] 4
      (.readable ⟨([70, 1, 2, 3] : List Nat).set 1 9, 4⟩) =
      .error .BadMagic :=
  (claim9_open_validation [70, 1, 2, 3] 4 ⟨[70, 1, 2, 3], 4⟩).2.2.2.2.2 1 9
    (by decide) (by decide)

/-- C10: when `mkstemp` succeeds, `command_live` runs `command_record`
against the fresh temporary path, runs `command_replay` on that path exactly
when record returned 0, unlinks the temporary file in both the success and
failure cases, and returns 0 regardless of the record result. -/
theorem claim10_live_flow (w : LiveWorld) (tmp : String)
    (h : w.mkstempPath = some tmp) :
    command_live w =
      (0, [.ranRecord tmp] ++
          (if w.recordResult = 0 then [.ranReplay tmp] else []) ++
          [.unlinked tmp]) ∧
    LiveEffect.unlinked tmp ∈ (command_live w).2 ∧
    (LiveEffect.ranReplay tmp ∈ (command_live w).2 ↔ w.recordResult = 0) := by
  refine ⟨?_, ?_, ?_⟩ <;>
    by_cases hr : w.recordResult = 0 <;>
    simp [command_live, h, hr]

theorem claim10_witness :
    command_live ⟨some "/tmp/ftrace-live-x1", -1⟩ =
      (0, [.ranRecord "/tmp/ftrace-live-x1"] ++
          (if (-1 : Int) = 0 then [.ranReplay "/tmp/ftrace-live-x1"]
           else []) ++
          [.unlinked "/tmp/ftrace-live-x1"]) ∧
    LiveEffect.unlinked "/tmp/ftrace-live-x1" ∈
      (command_live ⟨some "/tmp/ftrace-live-x1", -1⟩).2 ∧
    (LiveEffect.ranReplay "/tmp/ftrace-live-x1" ∈
        (command_live ⟨some "/tmp/ftrace-live-x1", -1⟩).2 ↔
      (⟨some "/tmp/ftrace-live-x1", -1⟩ : LiveWorld).recordResult = 0) :=
  claim10_live_flow ⟨some "/tmp/ftrace-live-x1", -1⟩ "/tmp/ftrace-live-x1" rfl
